import Mathlib

/-!
Verification of `starlette-ariadne` (src/mysite): a shallow embedding of
`graphql.py` (HTTP operation handler `graphql_http_server`, websocket
connection session `graphql_ws_server`) and `subscription.py`
(`SubscriptionAwareResolverMap.bind_to_schema`), with theorems settling the
spec claims about them.

External collaborators (graphql-core's `parse`, `graphql`, `subscribe`,
`format_error`, the schema, root value and context value) are modelled as
abstract parameters; the code of this repository is embedded concretely.
-/

/-- Python JSON values, as produced by `json.loads` / consumed by `json.dumps`.
Objects and the interpreter's dicts are insertion-ordered association lists. -/
inductive Json where
  | null : Json
  | bool : Bool → Json
  | num : Int → Json
  | str : String → Json
  | arr : List Json → Json
  | obj : List (String × Json) → Json

mutual

def Json.decEq : (a b : Json) → Decidable (a = b)
  | .null, .null => isTrue rfl
  | .bool a, .bool b =>
      if h : a = b then isTrue (by rw [h])
      else isFalse (fun hh => h (Json.bool.inj hh))
  | .num a, .num b =>
      if h : a = b then isTrue (by rw [h])
      else isFalse (fun hh => h (Json.num.inj hh))
  | .str a, .str b =>
      if h : a = b then isTrue (by rw [h])
      else isFalse (fun hh => h (Json.str.inj hh))
  | .arr xs, .arr ys =>
      match Json.decEqList xs ys with
      | isTrue h => isTrue (by rw [h])
      | isFalse h => isFalse (fun hh => h (Json.arr.inj hh))
  | .obj xs, .obj ys =>
      match Json.decEqFields xs ys with
      | isTrue h => isTrue (by rw [h])
      | isFalse h => isFalse (fun hh => h (Json.obj.inj hh))
  | .null, .bool _ => isFalse (fun h => Json.noConfusion h)
  | .null, .num _ => isFalse (fun h => Json.noConfusion h)
  | .null, .str _ => isFalse (fun h => Json.noConfusion h)
  | .null, .arr _ => isFalse (fun h => Json.noConfusion h)
  | .null, .obj _ => isFalse (fun h => Json.noConfusion h)
  | .bool _, .null => isFalse (fun h => Json.noConfusion h)
  | .bool _, .num _ => isFalse (fun h => Json.noConfusion h)
  | .bool _, .str _ => isFalse (fun h => Json.noConfusion h)
  | .bool _, .arr _ => isFalse (fun h => Json.noConfusion h)
  | .bool _, .obj _ => isFalse (fun h => Json.noConfusion h)
  | .num _, .null => isFalse (fun h => Json.noConfusion h)
  | .num _, .bool _ => isFalse (fun h => Json.noConfusion h)
  | .num _, .str _ => isFalse (fun h => Json.noConfusion h)
  | .num _, .arr _ => isFalse (fun h => Json.noConfusion h)
  | .num _, .obj _ => isFalse (fun h => Json.noConfusion h)
  | .str _, .null => isFalse (fun h => Json.noConfusion h)
  | .str _, .bool _ => isFalse (fun h => Json.noConfusion h)
  | .str _, .num _ => isFalse (fun h => Json.noConfusion h)
  | .str _, .arr _ => isFalse (fun h => Json.noConfusion h)
  | .str _, .obj _ => isFalse (fun h => Json.noConfusion h)
  | .arr _, .null => isFalse (fun h => Json.noConfusion h)
  | .arr _, .bool _ => isFalse (fun h => Json.noConfusion h)
  | .arr _, .num _ => isFalse (fun h => Json.noConfusion h)
  | .arr _, .str _ => isFalse (fun h => Json.noConfusion h)
  | .arr _, .obj _ => isFalse (fun h => Json.noConfusion h)
  | .obj _, .null => isFalse (fun h => Json.noConfusion h)
  | .obj _, .bool _ => isFalse (fun h => Json.noConfusion h)
  | .obj _, .num _ => isFalse (fun h => Json.noConfusion h)
  | .obj _, .str _ => isFalse (fun h => Json.noConfusion h)
  | .obj _, .arr _ => isFalse (fun h => Json.noConfusion h)

def Json.decEqList : (xs ys : List Json) → Decidable (xs = ys)
  | [], [] => isTrue rfl
  | [], _ :: _ => isFalse (fun h => List.noConfusion h)
  | _ :: _, [] => isFalse (fun h => List.noConfusion h)
  | x :: xs, y :: ys =>
      match Json.decEq x y with
      | isTrue h1 =>
          match Json.decEqList xs ys with
          | isTrue h2 => isTrue (by rw [h1, h2])
          | isFalse h2 => isFalse (fun hh => h2 (List.cons.inj hh).2)
      | isFalse h1 => isFalse (fun hh => h1 (List.cons.inj hh).1)

def Json.decEqFields : (xs ys : List (String × Json)) → Decidable (xs = ys)
  | [], [] => isTrue rfl
  | [], _ :: _ => isFalse (fun h => List.noConfusion h)
  | _ :: _, [] => isFalse (fun h => List.noConfusion h)
  | (k, x) :: xs, (l, y) :: ys =>
      if hk : k = l then
          match Json.decEq x y with
          | isTrue h1 =>
              match Json.decEqFields xs ys with
              | isTrue h2 => isTrue (by rw [hk, h1, h2])
              | isFalse h2 => isFalse (fun hh => h2 (List.cons.inj hh).2)
          | isFalse h1 => isFalse (fun hh => h1 (congrArg Prod.snd (List.cons.inj hh).1))
      else isFalse (fun hh => hk (congrArg Prod.fst (List.cons.inj hh).1))

end

instance : DecidableEq Json := Json.decEq

/-- Python truthiness of a JSON value (`if result.data:` etc.):
`None`, `False`, `0`, `""`, `[]`, `{}` are falsy, everything else truthy. -/
def Json.truthy : Json → Bool
  | .null => false
  | .bool b => b
  | .num n => n != 0
  | .str s => s != ""
  | .arr xs => !xs.isEmpty
  | .obj fs => !fs.isEmpty

/-- `d.get(k)` on a Python dict represented as an association list:
first binding for the key, if any. -/
def dictGet {α β : Type} [DecidableEq α] (k : α) : List (α × β) → Option β
  | [] => none
  | (k', v) :: rest => if k' = k then some v else dictGet k rest

/-- `d.get(k)` returning `None` (here: a default) when the key is absent. -/
def dictGetD {α β : Type} [DecidableEq α] (k : α) (d : List (α × β)) (dflt : β) : β :=
  (dictGet k d).getD dflt

/-- `d[k] = v` on a Python dict: replace the existing binding in place,
else append a new one (insertion order preserved). -/
def dictInsert {α β : Type} [DecidableEq α] (k : α) (v : β) : List (α × β) → List (α × β)
  | [] => [(k, v)]
  | (k', v') :: rest =>
      if k' = k then (k, v) :: rest else (k', v') :: dictInsert k v rest

/-- `del d[k]` on a Python dict: drop the (unique) binding for the key. -/
def dictRemove {α β : Type} [DecidableEq α] (k : α) : List (α × β) → List (α × β)
  | [] => []
  | (k', v') :: rest =>
      if k' = k then rest else (k', v') :: dictRemove k rest

/-- `ariadne.constants.DATA_TYPE_JSON`. -/
def DATA_TYPE_JSON : String := "application/json"

/-- A `graphql.GraphQLError` as far as this code observes it: its message.
(`format_error` output is kept abstract, see `format_error` parameters.) -/
structure GQLError where
  message : String
deriving DecidableEq

/-- A `graphql.ExecutionResult`: `data` (a JSON value, `Json.null` for
Python `None`) and the list of execution errors (empty for `errors=None`). -/
structure ExecResult where
  data : Json
  errors : List GQLError
deriving DecidableEq

/-- An inbound HTTP request as `extract_data_from_request` observes it:
the `Content-Type` header (`none` when absent) and the result of
`await request.json()` (`none` when the body is not valid JSON, in which
case `request.json()` raises an uncaught decode error). -/
structure Request where
  content_type : Option String
  body : Option Json
deriving DecidableEq

/-- The exceptions `extract_data_from_request` can surface: an
`HttpBadRequestError` (an `ariadne` `HttpError` with `status` "400 Bad
Request"), a `graphql.GraphQLError`, or the uncaught JSON decode error. -/
inductive ExtractErr where
  | http_bad_request : String → ExtractErr
  | graphql_error : String → ExtractErr
  | json_decode_error : ExtractErr
deriving DecidableEq

/-- `extract_data_from_request` (src/mysite/graphql.py lines 45-59):
reject a wrong `Content-Type` with `HttpBadRequestError`; parse the body;
reject a non-dict body with `GraphQLError("Valid request body should be a
JSON object")`; else return `data.get("query")`, `data.get("variables")`,
`data.get("operationName")` (each `Json.null` when absent, as `dict.get`
returns `None`). -/
def extract_data_from_request (r : Request) : Except ExtractErr (Json × Json × Json) :=
  if r.content_type ≠ some DATA_TYPE_JSON then
    .error (.http_bad_request ("Posted content must be of type " ++ DATA_TYPE_JSON))
  else
    match r.body with
    | none => .error .json_decode_error
    | some d =>
        match d with
        | .obj fields =>
            .ok (dictGetD "query" fields .null,
                 dictGetD "variables" fields .null,
                 dictGetD "operationName" fields .null)
        | _ => .error (.graphql_error "Valid request body should be a JSON object")

/-- `default_context_for_request`: wraps the raw request/message as
`{"request": request}`. -/
def default_context_for_request (request : Json) : Json :=
  Json.obj [("request", request)]

/-- The responses `graphql_http_server` can produce: a `JSONResponse`
(status 200 by default), a plain `Response` with an explicit status, or an
exception that escapes the handler (uncaught JSON decode error). -/
inductive HttpResponse where
  | jsonResponse : Nat → Json → HttpResponse
  | plainResponse : Nat → String → HttpResponse
  | unhandledException : HttpResponse
deriving DecidableEq

/-- `graphql_http_server` (src/mysite/graphql.py lines 70-97).
The query executor `graphql(schema, query, root_value=None, context_value,
variable_values, operation_name)` is an external collaborator, abstracted
as `E : query → variables → operationName → ExecResult` (the fixed schema,
root value and the request-derived context value are absorbed into `E`);
`format_error` is abstracted as `fmt`. A `GraphQLError` raised while
extracting is answered `JSONResponse({"errors": [{"message": ...}]})`
(status 200); an `HttpError` is answered `Response(error.message or
error.status, status_code=400)`; otherwise the result envelope
`{"data": result.data}` gains an `"errors"` key only when `result.errors`
is non-empty. -/
def graphql_http_server (E : Json → Json → Json → ExecResult)
    (fmt : GQLError → Json) (r : Request) : HttpResponse :=
  match extract_data_from_request r with
  | .error (.graphql_error msg) =>
      .jsonResponse 200 (Json.obj [("errors", Json.arr [Json.obj [("message", Json.str msg)]])])
  | .error (.http_bad_request msg) =>
      .plainResponse 400 (if msg = "" then "400 Bad Request" else msg)
  | .error .json_decode_error => .unhandledException
  | .ok (query, vars, operation_name) =>
      let result := E query vars operation_name
      .jsonResponse 200 (Json.obj
        ([("data", result.data)] ++
          (if result.errors.isEmpty then []
           else [("errors", Json.arr (result.errors.map fmt))])))

/-- Protocol message type constants (src/mysite/graphql.py lines 30-42). -/
def GQL_CONNECTION_INIT : String := "connection_init"

def GQL_CONNECTION_ACK : String := "connection_ack"

def GQL_CONNECTION_ERROR : String := "connection_error"

def GQL_CONNECTION_KEEP_ALIVE : String := "ka"

def GQL_CONNECTION_TERMINATE : String := "connection_terminate"

def GQL_START : String := "start"

def GQL_DATA : String := "data"

def GQL_ERROR : String := "error"

def GQL_COMPLETE : String := "complete"

def GQL_STOP : String := "stop"

/-- The outcome of `subscribe(schema, document, ...)` (graphql-core, an
external collaborator): either a bare `ExecutionResult` (structural
failure) or an async generator of `ExecutionResult`s, modelled by the
finite list of results the generator would yield before ending naturally. -/
inductive SubscribeResult where
  | result : ExecResult → SubscribeResult
  | stream : List ExecResult → SubscribeResult
deriving DecidableEq

/-- The external collaborators `graphql_ws_server` calls: graphql-core's
`parse` (returns a document, modelled as its text, or raises a
`GraphQLSyntaxError`, a `GraphQLError` subclass), `subscribe` (given
document, context value, variables and operation name; the fixed schema and
`root_value=None` are absorbed) and `format_error`. -/
structure Collab where
  parse : Json → Except GQLError String
  subscribe : String → Json → Json → Json → SubscribeResult
  format_error : GQLError → Json

/-- Exceptions that can escape the websocket dispatch loop (there is no
try/except in `graphql_ws_server`, so any of these kills the session):
`AttributeError` (`.get` on a non-dict message), a `GraphQLError`
(from `extract_data_from_websocket` or `parse`), `IndexError`
(`results.errors[0]` on an empty error list), and the receive failure when
the transport drops. -/
inductive PyExc where
  | attribute_error : PyExc
  | graphql_error : String → PyExc
  | index_error : PyExc
  | websocket_disconnect : PyExc
deriving DecidableEq

/-- `extract_data_from_websocket` (src/mysite/graphql.py lines 100-109):
`payload = message.get("payload")`; raise
`GraphQLError("Payload must be an object")` unless it is a dict; else
return `payload.get("query")`, `payload.get("variables")`,
`payload.get("operationName")`. -/
def extract_data_from_websocket (message : List (String × Json)) :
    Except GQLError (Json × Json × Json) :=
  match dictGetD "payload" message Json.null with
  | .obj p =>
      .ok (dictGetD "query" p .null,
           dictGetD "variables" p .null,
           dictGetD "operationName" p .null)
  | _ => .error ⟨"Payload must be an object"⟩

/-- A server→client frame of the `graphql-ws` sub-protocol, as built by
`graphql_ws_server` / `observe_async_results` and serialized by
`send_json`. -/
inductive Frame where
  | connection_ack : Frame
  | error_msg : Json → Json → Frame
  | data_msg : Json → Json → Frame
  | complete : Json → Frame
deriving DecidableEq

/-- One `asyncio.ensure_future(observe_async_results(results, operation_id,
websocket))` task: the operation id it tags its frames with and the stream
it consumes. Spawned tasks are never cancelled by the session. -/
structure ObserverTask where
  operation_id : Json
  results : List ExecResult
deriving DecidableEq

/-- The state of one `graphql_ws_server` session: the local
`subscriptions` dict (the Subscription Table: operation id → registered
stream), the observer tasks spawned so far, the frames sent by the dispatch
loop itself (`connection_ack` and `error` frames; `data`/`complete` frames
are sent by the observer tasks, see `observe_async_results`), and the
`aclose()` calls performed so far (each recorded with the table entry it
closed). -/
structure SessionState where
  subscriptions : List (Json × List ExecResult)
  tasks : List ObserverTask
  sent : List Frame
  closed : List (Json × List ExecResult)
deriving DecidableEq

/-- The state right after `websocket.accept("graphql-ws")`:
`subscriptions = {}`, nothing spawned, sent or closed. -/
def initial_session : SessionState := ⟨[], [], [], []⟩

/-- The `payload` dict built for one stream item in
`observe_async_results`: `payload = {}`; `"data"` added when
`result.data` is truthy, then `"errors"` added when `result.errors` is
non-empty (formatted with `format_error`). -/
def result_payload (C : Collab) (result : ExecResult) : Json :=
  Json.obj
    ((if result.data.truthy then [("data", result.data)] else []) ++
     (if result.errors.isEmpty then []
      else [("errors", Json.arr (result.errors.map C.format_error))]))

/-- `observe_async_results` (src/mysite/graphql.py lines 112-124) run over
a stream that is never closed from outside: one `data` frame per item the
generator yields, then exactly one `complete` frame. -/
def observe_async_results (C : Collab) (results : List ExecResult)
    (operation_id : Json) : List Frame :=
  results.map (fun r => Frame.data_msg operation_id (result_payload C r)) ++
    [Frame.complete operation_id]

/-- Outcome of one iteration of the dispatch loop body. -/
inductive StepOutcome where
  | next : SessionState → StepOutcome
  | terminated : SessionState → StepOutcome
  | crashed : SessionState → PyExc → StepOutcome
deriving DecidableEq

/-- One iteration of the `while True` dispatch loop of `graphql_ws_server`
(src/mysite/graphql.py lines 137-180) on an already-received message.
`operation_id = message.get("id")`, `message_type = message.get("type")`
(both `None`, i.e. `Json.null`, when absent; `AttributeError` if the
message is not a dict). `connection_init` → send `connection_ack`;
`connection_terminate` → break; `start` → extract payload, `parse` the
query (exceptions from either escape the loop uncaught), call `subscribe`:
a bare `ExecutionResult` yields one `error` frame with payload
`{"message": format_error(results.errors[0])}`, a stream is stored in
`subscriptions[operation_id]` and an observer task is spawned; `stop` →
if the id is registered, `aclose()` the stream and delete the entry, else
fall through; any other type falls through every branch, doing nothing. -/
def graphql_ws_server_step (C : Collab) (s : SessionState) (message : Json) :
    StepOutcome :=
  match message with
  | .obj fields =>
      let operation_id := dictGetD "id" fields Json.null
      let message_type := dictGetD "type" fields Json.null
      if message_type = Json.str GQL_CONNECTION_INIT then
        .next { s with sent := s.sent ++ [Frame.connection_ack] }
      else if message_type = Json.str GQL_CONNECTION_TERMINATE then
        .terminated s
      else if message_type = Json.str GQL_START then
        match extract_data_from_websocket fields with
        | .error e => .crashed s (.graphql_error e.message)
        | .ok (query, vars, operation_name) =>
            match C.parse query with
            | .error e => .crashed s (.graphql_error e.message)
            | .ok document =>
                match C.subscribe document (default_context_for_request message)
                    vars operation_name with
                | .result r =>
                    match r.errors with
                    | [] => .crashed s .index_error
                    | e :: _ =>
                        .next { s with sent := s.sent ++
                          [Frame.error_msg operation_id
                            (Json.obj [("message", C.format_error e)])] }
                | .stream results =>
                    .next { s with
                      subscriptions := dictInsert operation_id results s.subscriptions,
                      tasks := s.tasks ++ [⟨operation_id, results⟩] }
      else if message_type = Json.str GQL_STOP then
        match dictGet operation_id s.subscriptions with
        | some results =>
            .next { s with
              subscriptions := dictRemove operation_id s.subscriptions,
              closed := s.closed ++ [(operation_id, results)] }
        | none => .next s
      else
        .next s
  | _ => .crashed s .attribute_error

/-- One inbound event on the websocket: a received (already JSON-decoded)
message, or the transport dropping (making `receive_json` raise). -/
inductive Inbound where
  | frame : Json → Inbound
  | disconnect : Inbound
deriving DecidableEq

/-- How a run of the dispatch loop over a finite inbound prefix ends:
still awaiting the next frame, exited via `break` on
`connection_terminate`, or killed by an uncaught exception. In every case
the final `SessionState` is carried unchanged — the function body has no
cleanup code after the loop and no try/finally around it. -/
inductive RunResult where
  | awaiting : SessionState → RunResult
  | terminated : SessionState → RunResult
  | crashed : SessionState → PyExc → RunResult
deriving DecidableEq

/-- `graphql_ws_server` (src/mysite/graphql.py lines 137-180): the dispatch
loop consuming a finite prefix of inbound events from state `s`. -/
def graphql_ws_server (C : Collab) (s : SessionState) : List Inbound → RunResult
  | [] => .awaiting s
  | .disconnect :: _ => .crashed s .websocket_disconnect
  | .frame m :: rest =>
      match graphql_ws_server_step C s m with
      | .next s' => graphql_ws_server C s' rest
      | .terminated s' => .terminated s'
      | .crashed s' e => .crashed s' e

/-- The operation id a server frame is tagged with (`connection_ack`
carries none). -/
def Frame.frame_id : Frame → Option Json
  | .connection_ack => none
  | .error_msg i _ => some i
  | .data_msg i _ => some i
  | .complete i => some i

/-- A field definition of a GraphQL object type, as `bind_to_schema`
observes it: only its `subscribe` attribute (set by the binder; `none`
before). Subscriber functions are opaque values of a parameter type `σ`. -/
structure GraphQLField (σ : Type) where
  subscribe : Option σ
deriving DecidableEq

/-- A GraphQL object type from `schema.type_map`: its `fields` dict. -/
structure GraphQLType (σ : Type) where
  fields : List (String × GraphQLField σ)
deriving DecidableEq

/-- The loop body of `bind_to_schema` (src/mysite/subscription.py lines
46-51) over `self._subscribers.items()`: for each registered `(field,
subscriber)` in order, raise
`ValueError("Field <field> is not defined on type <name>")` when the field
is not in `graphql_type.fields`, else set the field's `subscribe`
attribute. (On an error the Python loop leaves the fields bound so far
mutated in place; this embedding only reports the raised error.) -/
def bind_subscribers {σ : Type} (name : String) (t : GraphQLType σ) :
    List (String × σ) → Except String (GraphQLType σ)
  | [] => .ok t
  | (field, subscriber) :: rest =>
      match dictGet field t.fields with
      | none => .error ("Field " ++ field ++ " is not defined on type " ++ name)
      | some fd =>
          bind_subscribers name
            ⟨dictInsert field { fd with subscribe := some subscriber } t.fields⟩ rest

/-- `SubscriptionAwareResolverMap.bind_to_schema` (src/mysite/
subscription.py lines 43-51), its subscription-specific part (the
`super().bind_to_schema(schema)` call binds plain resolvers and is an
external collaborator). `graphql_type = schema.type_map.get(self.name)`:
when the named type is absent and at least one subscriber is registered,
the first loop iteration raises `AttributeError` at `graphql_type.fields`;
with no subscribers the loop never runs and nothing is raised. -/
def bind_to_schema {σ : Type} (name : String) (subscribers : List (String × σ))
    (type_map : List (String × GraphQLType σ)) :
    Except String (List (String × GraphQLType σ)) :=
  match dictGet name type_map with
  | none =>
      match subscribers with
      | [] => .ok type_map
      | _ :: _ => .error "AttributeError: NoneType object has no attribute fields"
  | some t =>
      match bind_subscribers name t subscribers with
      | .error e => .error e
      | .ok t' => .ok (dictInsert name t' type_map)

/-- Whether a field name is defined on the named type of a type map
(`False` when the type itself is absent). -/
def field_defined {σ : Type} (name : String)
    (type_map : List (String × GraphQLType σ)) (field : String) : Bool :=
  match dictGet name type_map with
  | none => false
  | some t => (dictGet field t.fields).isSome

/-- Whether an HTTP response is a 400 with a non-empty plain-text body. -/
def HttpResponse.is_plain_400 : HttpResponse → Bool
  | .plainResponse 400 t => t != ""
  | _ => false

/-- A concrete instantiation of the external collaborators, used for
counterexamples and witnesses: `parse` fails on the query text `"{"`
(graphql-core raises `GraphQLSyntaxError`) and on non-string queries;
`subscribe` yields an empty stream for the document
`"subscription \x7b empty \x7d"`, a one-item stream for
`"subscription \x7b messages \x7d"`, and a bare error `ExecutionResult`
for `"subscription \x7b bad \x7d"`; `format_error` produces the minimal
`FormattedError` shape. -/
def demo_collab : Collab where
  parse := fun q =>
    match q with
    | Json.str s =>
        if s = "\x7b" then .error ⟨"Syntax Error: Expected Name, found <EOF>."⟩
        else .ok s
    | _ => .error ⟨"Must provide Source. Received: None."⟩
  subscribe := fun document _ _ _ =>
    if document = "subscription \x7b empty \x7d" then
      .stream []
    else if document = "subscription \x7b bad \x7d" then
      .result ⟨Json.null, [⟨"The subscription field should return AsyncIterable."⟩]⟩
    else
      .stream [⟨Json.obj [("messages", Json.str "hi")], []⟩]
  format_error := fun e => Json.obj [("message", Json.str e.message)]

/-- Shorthand for the `start` message of operation id `i` and query text
`q`, as used in concrete counterexamples and witnesses. -/
def start_msg (i : String) (q : String) : Json :=
  Json.obj [("type", Json.str "start"), ("id", Json.str i),
    ("payload", Json.obj [("query", Json.str q)])]

theorem dictGet_dictInsert {α β : Type} [DecidableEq α] (k k' : α) (v : β)
    (d : List (α × β)) :
    dictGet k (dictInsert k' v d) = if k' = k then some v else dictGet k d := by
  induction d with
  | nil => simp [dictGet, dictInsert]
  | cons hd tl ih =>
      obtain ⟨k0, v0⟩ := hd
      by_cases h0 : k0 = k'
      · subst h0
        by_cases h1 : k0 = k <;> simp [dictGet, dictInsert, h1]
      · by_cases h1 : k0 = k
        · subst h1
          have h2 : k' ≠ k0 := fun hh => h0 hh.symm
          simp [dictGet, dictInsert, h0, h2]
        · simp [dictGet, dictInsert, h0, h1, ih]

theorem dictGet_eq_none_of_not_mem {α β : Type} [DecidableEq α] (k : α)
    (d : List (α × β)) (h : k ∉ d.map Prod.fst) : dictGet k d = none := by
  induction d with
  | nil => rfl
  | cons hd tl ih =>
      obtain ⟨k0, v0⟩ := hd
      simp only [List.map_cons, List.mem_cons] at h
      push_neg at h
      have h0 : ¬ k0 = k := fun hh => h.1 hh.symm
      simp [dictGet, h0, ih h.2]

theorem dictGet_dictRemove_self {α β : Type} [DecidableEq α] (k : α)
    (d : List (α × β)) (h : (d.map Prod.fst).Nodup) :
    dictGet k (dictRemove k d) = none := by
  induction d with
  | nil => rfl
  | cons hd tl ih =>
      obtain ⟨k0, v0⟩ := hd
      simp only [List.map_cons, List.nodup_cons] at h
      by_cases h0 : k0 = k
      · subst h0
        simp [dictRemove, dictGet_eq_none_of_not_mem k0 tl h.1]
      · simp [dictRemove, dictGet, h0, ih h.2]

/-- C1, counterexample: a POST with Content-Type `application/json` whose
body parses as the JSON array `[]` is answered by `graphql_http_server`
with a 200 `JSONResponse` carrying an errors envelope — not with a 400
plain-text message as the claim states (the `GraphQLError` raised in
`extract_data_from_request` is caught by the `except GraphQLError` branch,
which builds a default-status `JSONResponse`). -/
theorem C1_counterexample :
    graphql_http_server (fun _ _ _ => ⟨Json.null, []⟩)
        (fun e => Json.obj [("message", Json.str e.message)])
        ⟨some "application/json", some (Json.arr [])⟩ =
      HttpResponse.jsonResponse 200 (Json.obj [("errors", Json.arr
        [Json.obj [("message", Json.str "Valid request body should be a JSON object")]])]) ∧
    HttpResponse.is_plain_400 (graphql_http_server (fun _ _ _ => ⟨Json.null, []⟩)
        (fun e => Json.obj [("message", Json.str e.message)])
        ⟨some "application/json", some (Json.arr [])⟩) = false :=
  ⟨rfl, rfl⟩

/-- C1 (amended): for every POST request with Content-Type
`application/json` whose body parses as JSON but is not a JSON object,
`graphql_http_server` responds with status 200 and the JSON envelope
`{"errors": [{"message": "Valid request body should be a JSON object"}]}`
— a 200 error envelope, not a 400 plain-text response. -/
theorem C1_non_object_body_yields_200_errors_envelope
    (E : Json → Json → Json → ExecResult) (fmt : GQLError → Json)
    (r : Request) (b : Json)
    (hct : r.content_type = some "application/json")
    (hbody : r.body = some b)
    (hnotobj : ∀ fields, b ≠ Json.obj fields) :
    graphql_http_server E fmt r =
      HttpResponse.jsonResponse 200 (Json.obj [("errors", Json.arr
        [Json.obj [("message", Json.str "Valid request body should be a JSON object")]])]) := by
  cases b
  case obj fields => exact absurd rfl (hnotobj fields)
  all_goals
    simp [graphql_http_server, extract_data_from_request, DATA_TYPE_JSON, hct, hbody]

/-- C1, witness for the amended theorem at a concrete non-object body. -/
theorem C1_witness :
    graphql_http_server (fun _ _ _ => ⟨Json.null, []⟩)
        (fun e => Json.obj [("message", Json.str e.message)])
        ⟨some "application/json", some (Json.str "hello")⟩ =
      HttpResponse.jsonResponse 200 (Json.obj [("errors", Json.arr
        [Json.obj [("message", Json.str "Valid request body should be a JSON object")]])]) :=
  C1_non_object_body_yields_200_errors_envelope _ _ _ (Json.str "hello") rfl rfl
    (fun _ h => Json.noConfusion h)

/-- C4: for every valid Operation Request — Content-Type
`application/json` and a JSON-object body — whose execution produces no
errors, `graphql_http_server` returns status 200 with body
`{"data": result.data}`: the `errors` key is absent and `data` is exactly
the data the executor reported. -/
theorem C4_success_envelope
    (E : Json → Json → Json → ExecResult) (fmt : GQLError → Json)
    (r : Request) (fields : List (String × Json)) (result : ExecResult)
    (hct : r.content_type = some "application/json")
    (hbody : r.body = some (Json.obj fields))
    (hres : E (dictGetD "query" fields Json.null)
        (dictGetD "variables" fields Json.null)
        (dictGetD "operationName" fields Json.null) = result)
    (hnoerr : result.errors = []) :
    graphql_http_server E fmt r =
      HttpResponse.jsonResponse 200 (Json.obj [("data", result.data)]) ∧
    dictGet "errors" [("data", result.data)] = none ∧
    dictGet "data" [("data", result.data)] = some result.data := by
  refine ⟨?_, by simp [dictGet], by simp [dictGet]⟩
  simp [graphql_http_server, extract_data_from_request, DATA_TYPE_JSON, hct, hbody,
    hres, hnoerr]

/-- C4, witness at a concrete request and executor. -/
theorem C4_witness :
    graphql_http_server (fun _ _ _ => ⟨Json.obj [("hello", Json.str "Hello!")], []⟩)
        (fun e => Json.obj [("message", Json.str e.message)])
        ⟨some "application/json", some (Json.obj [("query", Json.str "\x7b hello \x7d")])⟩ =
      HttpResponse.jsonResponse 200
        (Json.obj [("data", Json.obj [("hello", Json.str "Hello!")])]) ∧
    dictGet "errors" [("data", Json.obj [("hello", Json.str "Hello!")])] = none ∧
    dictGet "data" [("data", Json.obj [("hello", Json.str "Hello!")])] =
      some (Json.obj [("hello", Json.str "Hello!")]) :=
  C4_success_envelope _ _ _ [("query", Json.str "\x7b hello \x7d")]
    ⟨Json.obj [("hello", Json.str "Hello!")], []⟩ rfl rfl rfl rfl

theorem bind_subscribers_isOk_eq {σ : Type} (name : String)
    (subs : List (String × σ)) (t : GraphQLType σ) :
    (bind_subscribers name t subs).isOk =
      subs.all (fun p => (dictGet p.1 t.fields).isSome) := by
  induction subs generalizing t with
  | nil => simp [bind_subscribers, Except.isOk, Except.toBool]
  | cons hd tl ih =>
      obtain ⟨f, sub⟩ := hd
      cases hget : dictGet f t.fields with
      | none => simp [bind_subscribers, hget, Except.isOk, Except.toBool]
      | some fd =>
          have hfun : (fun p : String × σ =>
              (dictGet p.1 (dictInsert f { fd with subscribe := some sub } t.fields)).isSome) =
              (fun p : String × σ => (dictGet p.1 t.fields).isSome) := by
            funext p
            rw [dictGet_dictInsert]
            by_cases hf : f = p.1
            · subst hf
              rw [if_pos rfl, hget]
              rfl
            · rw [if_neg hf]
          simp [bind_subscribers, hget, ih, hfun]

theorem bind_subscribers_preserves {σ : Type} (name : String)
    (subs : List (String × σ)) (t t' : GraphQLType σ) (f : String)
    (hf : f ∉ subs.map Prod.fst)
    (h : bind_subscribers name t subs = .ok t') :
    dictGet f t'.fields = dictGet f t.fields := by
  induction subs generalizing t with
  | nil =>
      simp only [bind_subscribers] at h
      cases h
      rfl
  | cons hd tl ih =>
      obtain ⟨f0, sub0⟩ := hd
      simp only [List.map_cons, List.mem_cons] at hf
      push_neg at hf
      cases hget : dictGet f0 t.fields with
      | none =>
          simp only [bind_subscribers, hget] at h
          cases h
      | some fd =>
          simp only [bind_subscribers, hget] at h
          rw [ih _ hf.2 h, dictGet_dictInsert,
            if_neg (fun hh => hf.1 hh.symm)]

theorem bind_subscribers_attaches {σ : Type} (name : String)
    (subs : List (String × σ)) (t t' : GraphQLType σ)
    (hnodup : (subs.map Prod.fst).Nodup)
    (h : bind_subscribers name t subs = .ok t') :
    ∀ f sub, (f, sub) ∈ subs → dictGet f t'.fields = some ⟨some sub⟩ := by
  induction subs generalizing t with
  | nil =>
      intro f sub hmem
      cases hmem
  | cons hd tl ih =>
      obtain ⟨f0, sub0⟩ := hd
      simp only [List.map_cons, List.nodup_cons] at hnodup
      cases hget : dictGet f0 t.fields with
      | none =>
          simp only [bind_subscribers, hget] at h
          cases h
      | some fd =>
          simp only [bind_subscribers, hget] at h
          intro f sub hmem
          rcases List.mem_cons.mp hmem with heq | hmem'
          · cases heq
            rw [bind_subscribers_preserves name tl _ t' f0 hnodup.1 h,
              dictGet_dictInsert, if_pos rfl]
          · exact ih _ hnodup.2 h f sub hmem'

/-- C8: `bind_to_schema` raises an error if and only if some registered
subscription field name is not defined on the named root type (when the
named type is absent from the type map, any registered name counts as
undefined: the loop's first iteration raises `AttributeError`); when every
registered name is defined, binding succeeds — raising nothing — and
attaches each registered subscriber to its field's `subscribe` attribute. -/
theorem C8_bind_iff_fields_exist (σ : Type) (name : String)
    (subscribers : List (String × σ)) (type_map : List (String × GraphQLType σ))
    (hnodup : (subscribers.map Prod.fst).Nodup) :
    ((bind_to_schema name subscribers type_map).isOk = true ↔
      ∀ p ∈ subscribers, field_defined name type_map p.1 = true) ∧
    (∀ tm', bind_to_schema name subscribers type_map = .ok tm' →
      ∀ p ∈ subscribers, ∃ t', dictGet name tm' = some t' ∧
        dictGet p.1 t'.fields = some ⟨some p.2⟩) := by
  cases hty : dictGet name type_map with
  | none =>
      cases subscribers with
      | nil =>
          constructor
          · simp [bind_to_schema, hty, Except.isOk, Except.toBool]
          · intro tm' h p hp
            cases hp
      | cons hd tl =>
          constructor
          · simp only [bind_to_schema, hty, Except.isOk, Except.toBool]
            constructor
            · intro h
              cases h
            · intro h
              have hh := h hd (List.mem_cons_self hd tl)
              simp [field_defined, hty] at hh
          · intro tm' h
            simp only [bind_to_schema, hty] at h
            cases h
  | some t =>
      have heq := bind_subscribers_isOk_eq name subscribers t
      have hfd : ∀ p : String × σ,
          field_defined name type_map p.1 = (dictGet p.1 t.fields).isSome := by
        intro p
        simp [field_defined, hty]
      constructor
      · cases hbind : bind_subscribers name t subscribers with
        | error e =>
            rw [hbind] at heq
            have hb : bind_to_schema name subscribers type_map = .error e := by
              simp [bind_to_schema, hty, hbind]
            rw [hb]
            simp only [Except.isOk, Except.toBool]
            constructor
            · intro h
              cases h
            · intro h
              have hall : subscribers.all
                  (fun p => (dictGet p.1 t.fields).isSome) = true :=
                List.all_eq_true.mpr (fun p hp => by rw [← hfd p]; exact h p hp)
              rw [← heq] at hall
              cases hall
        | ok t1 =>
            rw [hbind] at heq
            have hb : bind_to_schema name subscribers type_map =
                .ok (dictInsert name t1 type_map) := by
              simp [bind_to_schema, hty, hbind]
            rw [hb]
            simp only [Except.isOk, Except.toBool]
            constructor
            · intro _ p hp
              rw [hfd p]
              exact List.all_eq_true.mp heq.symm p hp
            · intro _
              trivial
      · intro tm' h p hp
        cases hbind : bind_subscribers name t subscribers with
        | error e =>
            simp only [bind_to_schema, hty, hbind] at h
            cases h
        | ok t1 =>
            simp only [bind_to_schema, hty, hbind] at h
            injection h with h
            subst h
            refine ⟨t1, ?_, ?_⟩
            · rw [dictGet_dictInsert, if_pos rfl]
            · obtain ⟨f, sub⟩ := p
              exact bind_subscribers_attaches name subscribers t t1 hnodup hbind f sub hp

/-- C8, witness: a Subscription type with a `messages` field and one
registered subscriber (subscriber values are opaque tokens, here `Nat`). -/
theorem C8_witness :
    (((bind_to_schema "Subscription" [("messages", (0 : Nat))]
        ([("Subscription", ⟨[("messages", ⟨none⟩)]⟩)] :
          List (String × GraphQLType Nat))).isOk = true ↔
      ∀ p ∈ [("messages", (0 : Nat))], field_defined "Subscription"
        ([("Subscription", ⟨[("messages", ⟨none⟩)]⟩)] :
          List (String × GraphQLType Nat)) p.1 = true) ∧
    (∀ tm', bind_to_schema "Subscription" [("messages", (0 : Nat))]
        ([("Subscription", ⟨[("messages", ⟨none⟩)]⟩)] :
          List (String × GraphQLType Nat)) = .ok tm' →
      ∀ p ∈ [("messages", (0 : Nat))], ∃ t', dictGet "Subscription" tm' = some t' ∧
        dictGet p.1 t'.fields = some ⟨some p.2⟩)) :=
  C8_bind_iff_fields_exist Nat "Subscription" [("messages", 0)]
    [("Subscription", ⟨[("messages", ⟨none⟩)]⟩)] (by simp)

/-- C6: a `stop` message whose id is not in the Subscription Table leaves
the session state entirely unchanged — no frame is emitted, no stream
closed, no exception raised — and the dispatch loop continues processing
subsequent frames exactly as if the `stop` had not been received. -/
theorem C6_stop_unknown_id_is_noop (C : Collab) (s : SessionState)
    (fields : List (String × Json)) (rest : List Inbound)
    (htype : dictGetD "type" fields Json.null = Json.str "stop")
    (habsent : dictGet (dictGetD "id" fields Json.null) s.subscriptions = none) :
    graphql_ws_server_step C s (Json.obj fields) = .next s ∧
    graphql_ws_server C s (Inbound.frame (Json.obj fields) :: rest) =
      graphql_ws_server C s rest := by
  have hstep : graphql_ws_server_step C s (Json.obj fields) = .next s := by
    simp [graphql_ws_server_step, htype, habsent, GQL_CONNECTION_INIT,
      GQL_CONNECTION_TERMINATE, GQL_START, GQL_STOP]
  exact ⟨hstep, by simp [graphql_ws_server, hstep]⟩

/-- C6, witness: a `stop` for id "1" on a fresh session (empty table). -/
theorem C6_witness :
    graphql_ws_server_step demo_collab initial_session
      (Json.obj [("type", Json.str "stop"), ("id", Json.str "1")]) =
        .next initial_session ∧
    graphql_ws_server demo_collab initial_session
      [Inbound.frame (Json.obj [("type", Json.str "stop"), ("id", Json.str "1")])] =
      graphql_ws_server demo_collab initial_session [] :=
  C6_stop_unknown_id_is_noop demo_collab initial_session
    [("type", Json.str "stop"), ("id", Json.str "1")] [] rfl rfl

/-- C10: the session keeps no handshake state: any `connection_init`
message — the first or a repeated one, in any state — is answered with
exactly one `connection_ack` frame and changes nothing else (table, tasks
and closed streams untouched), after which the run continues exactly as it
would from that state; since `start`/`stop` handling reads only that
untouched state, it is identical whether or not a `connection_init` was
ever received. -/
theorem C10_no_handshake_state (C : Collab) (s : SessionState)
    (fields : List (String × Json)) (ms : List Inbound)
    (hinit : dictGetD "type" fields Json.null = Json.str "connection_init") :
    graphql_ws_server_step C s (Json.obj fields) =
      .next { s with sent := s.sent ++ [Frame.connection_ack] } ∧
    graphql_ws_server C s (Inbound.frame (Json.obj fields) :: ms) =
      graphql_ws_server C { s with sent := s.sent ++ [Frame.connection_ack] } ms ∧
    ({ s with sent := s.sent ++ [Frame.connection_ack] } : SessionState).subscriptions =
      s.subscriptions ∧
    ({ s with sent := s.sent ++ [Frame.connection_ack] } : SessionState).tasks =
      s.tasks ∧
    ({ s with sent := s.sent ++ [Frame.connection_ack] } : SessionState).closed =
      s.closed := by
  have hstep : graphql_ws_server_step C s (Json.obj fields) =
      .next { s with sent := s.sent ++ [Frame.connection_ack] } := by
    simp [graphql_ws_server_step, hinit, GQL_CONNECTION_INIT]
  exact ⟨hstep, by simp [graphql_ws_server, hstep], rfl, rfl, rfl⟩

/-- C10, witness: a repeated `connection_init` (one ack already sent). -/
theorem C10_witness :
    graphql_ws_server_step demo_collab
      ⟨[], [], [Frame.connection_ack], []⟩
      (Json.obj [("type", Json.str "connection_init")]) =
        .next ⟨[], [], [Frame.connection_ack, Frame.connection_ack], []⟩ ∧
    graphql_ws_server demo_collab ⟨[], [], [Frame.connection_ack], []⟩
      [Inbound.frame (Json.obj [("type", Json.str "connection_init")])] =
      graphql_ws_server demo_collab
        ⟨[], [], [Frame.connection_ack, Frame.connection_ack], []⟩ [] ∧
    (⟨[], [], [Frame.connection_ack, Frame.connection_ack], []⟩ :
      SessionState).subscriptions = ([] : List (Json × List ExecResult)) ∧
    (⟨[], [], [Frame.connection_ack, Frame.connection_ack], []⟩ :
      SessionState).tasks = ([] : List ObserverTask) ∧
    (⟨[], [], [Frame.connection_ack, Frame.connection_ack], []⟩ :
      SessionState).closed = ([] : List (Json × List ExecResult)) :=
  C10_no_handshake_state demo_collab ⟨[], [], [Frame.connection_ack], []⟩
    [("type", Json.str "connection_init")] [] rfl

theorem observe_async_results_frames_tagged (C : Collab)
    (items : List ExecResult) (oid : Json) :
    ∀ f ∈ observe_async_results C items oid, f.frame_id = some oid := by
  intro f hf
  simp only [observe_async_results, List.mem_append, List.mem_map,
    List.mem_singleton] at hf
  rcases hf with ⟨r, _, rfl⟩ | rfl <;> rfl

/-- C5: when `subscribe` answers a `start` with a bare `ExecutionResult`
(structural failure) whose first error is `e`, the session appends exactly
one `error` frame `{"type": "error", "id": id, "payload": {"message":
format_error(e)}}`; the Subscription Table, spawned tasks and closed
streams are untouched — in particular the id is never registered — and the
dispatch loop continues with the next frame. -/
theorem C5_start_failure_sends_one_error_frame (C : Collab) (s : SessionState)
    (fields p : List (String × Json)) (rest : List Inbound)
    (doc : String) (d : Json) (e : GQLError) (es : List GQLError)
    (htype : dictGetD "type" fields Json.null = Json.str "start")
    (hpayload : dictGetD "payload" fields Json.null = Json.obj p)
    (hparse : C.parse (dictGetD "query" p Json.null) = .ok doc)
    (hsub : C.subscribe doc (default_context_for_request (Json.obj fields))
        (dictGetD "variables" p Json.null)
        (dictGetD "operationName" p Json.null) = .result ⟨d, e :: es⟩) :
    graphql_ws_server_step C s (Json.obj fields) =
      .next { s with sent := s.sent ++
        [Frame.error_msg (dictGetD "id" fields Json.null)
          (Json.obj [("message", C.format_error e)])] } ∧
    graphql_ws_server C s (Inbound.frame (Json.obj fields) :: rest) =
      graphql_ws_server C { s with sent := s.sent ++
        [Frame.error_msg (dictGetD "id" fields Json.null)
          (Json.obj [("message", C.format_error e)])] } rest := by
  have hstep : graphql_ws_server_step C s (Json.obj fields) =
      .next { s with sent := s.sent ++
        [Frame.error_msg (dictGetD "id" fields Json.null)
          (Json.obj [("message", C.format_error e)])] } := by
    simp [graphql_ws_server_step, extract_data_from_websocket, htype, hpayload,
      hparse, hsub, GQL_CONNECTION_INIT, GQL_CONNECTION_TERMINATE, GQL_START]
  exact ⟨hstep, by simp [graphql_ws_server, hstep]⟩

/-- C5, witness: `start id="1"` whose document the executor rejects. -/
theorem C5_witness :
    graphql_ws_server_step demo_collab initial_session
      (start_msg "1" "subscription \x7b bad \x7d") =
      .next ⟨[], [],
        [Frame.error_msg (Json.str "1") (Json.obj [("message", Json.obj
          [("message", Json.str
            "The subscription field should return AsyncIterable.")])])], []⟩ ∧
    graphql_ws_server demo_collab initial_session
      [Inbound.frame (start_msg "1" "subscription \x7b bad \x7d")] =
      graphql_ws_server demo_collab ⟨[], [],
        [Frame.error_msg (Json.str "1") (Json.obj [("message", Json.obj
          [("message", Json.str
            "The subscription field should return AsyncIterable.")])])], []⟩ [] :=
  C5_start_failure_sends_one_error_frame demo_collab initial_session
    [("type", Json.str "start"), ("id", Json.str "1"),
      ("payload", Json.obj [("query", Json.str "subscription \x7b bad \x7d")])]
    [("query", Json.str "subscription \x7b bad \x7d")] []
    "subscription \x7b bad \x7d" Json.null
    ⟨"The subscription field should return AsyncIterable."⟩ [] rfl rfl rfl rfl

/-- C9: a `start` whose id is already registered with a still-active
stream silently overwrites the table entry with the new stream: no
`aclose` is performed on the old stream and its observer task is not
cancelled, so after the overwrite both the old and the new observer task
are live, and every frame either of them emits is tagged with the same
operation id. -/
theorem C9_duplicate_start_overwrites_without_close (C : Collab)
    (s : SessionState) (fields p : List (String × Json)) (doc : String)
    (old new : List ExecResult)
    (htype : dictGetD "type" fields Json.null = Json.str "start")
    (hpayload : dictGetD "payload" fields Json.null = Json.obj p)
    (hparse : C.parse (dictGetD "query" p Json.null) = .ok doc)
    (hsub : C.subscribe doc (default_context_for_request (Json.obj fields))
        (dictGetD "variables" p Json.null)
        (dictGetD "operationName" p Json.null) = .stream new)
    (_hreg : dictGet (dictGetD "id" fields Json.null) s.subscriptions = some old)
    (htask : (⟨dictGetD "id" fields Json.null, old⟩ : ObserverTask) ∈ s.tasks) :
    graphql_ws_server_step C s (Json.obj fields) =
      .next { s with
        subscriptions := dictInsert (dictGetD "id" fields Json.null) new
          s.subscriptions,
        tasks := s.tasks ++ [⟨dictGetD "id" fields Json.null, new⟩] } ∧
    dictGet (dictGetD "id" fields Json.null)
      (dictInsert (dictGetD "id" fields Json.null) new s.subscriptions) =
        some new ∧
    (⟨dictGetD "id" fields Json.null, old⟩ : ObserverTask) ∈
      s.tasks ++ [⟨dictGetD "id" fields Json.null, new⟩] ∧
    (⟨dictGetD "id" fields Json.null, new⟩ : ObserverTask) ∈
      s.tasks ++ [⟨dictGetD "id" fields Json.null, new⟩] ∧
    (∀ f ∈ observe_async_results C old (dictGetD "id" fields Json.null),
      f.frame_id = some (dictGetD "id" fields Json.null)) ∧
    (∀ f ∈ observe_async_results C new (dictGetD "id" fields Json.null),
      f.frame_id = some (dictGetD "id" fields Json.null)) := by
  refine ⟨?_, ?_, ?_, ?_, observe_async_results_frames_tagged C old _,
    observe_async_results_frames_tagged C new _⟩
  · simp [graphql_ws_server_step, extract_data_from_websocket, htype, hpayload,
      hparse, hsub, GQL_CONNECTION_INIT, GQL_CONNECTION_TERMINATE, GQL_START]
  · rw [dictGet_dictInsert, if_pos rfl]
  · exact List.mem_append_left _ htask
  · exact List.mem_append_right _ (List.mem_singleton.mpr rfl)

/-- C9, witness: a second `start id="1"` while id "1" is registered with a
still-active (empty) stream. -/
theorem C9_witness :
    graphql_ws_server_step demo_collab
      ⟨[(Json.str "1", [])], [⟨Json.str "1", []⟩], [], []⟩
      (start_msg "1" "subscription \x7b messages \x7d") =
      .next (⟨[(Json.str "1", [⟨Json.obj [("messages", Json.str "hi")], []⟩])],
        [⟨Json.str "1", []⟩,
         ⟨Json.str "1", [⟨Json.obj [("messages", Json.str "hi")], []⟩]⟩],
        [], []⟩ : SessionState) ∧
    dictGet (Json.str "1")
      (dictInsert (Json.str "1") [⟨Json.obj [("messages", Json.str "hi")], []⟩]
        ([(Json.str "1", [])] : List (Json × List ExecResult))) =
      some [⟨Json.obj [("messages", Json.str "hi")], []⟩] ∧
    (⟨Json.str "1", []⟩ : ObserverTask) ∈
      ([⟨Json.str "1", []⟩] : List ObserverTask) ++
        [⟨Json.str "1", [⟨Json.obj [("messages", Json.str "hi")], []⟩]⟩] ∧
    (⟨Json.str "1", [⟨Json.obj [("messages", Json.str "hi")], []⟩]⟩ :
      ObserverTask) ∈
      ([⟨Json.str "1", []⟩] : List ObserverTask) ++
        [⟨Json.str "1", [⟨Json.obj [("messages", Json.str "hi")], []⟩]⟩] ∧
    (∀ f ∈ observe_async_results demo_collab [] (Json.str "1"),
      f.frame_id = some (Json.str "1")) ∧
    (∀ f ∈ observe_async_results demo_collab
        [⟨Json.obj [("messages", Json.str "hi")], []⟩] (Json.str "1"),
      f.frame_id = some (Json.str "1")) :=
  C9_duplicate_start_overwrites_without_close demo_collab
    ⟨[(Json.str "1", [])], [⟨Json.str "1", []⟩], [], []⟩
    [("type", Json.str "start"), ("id", Json.str "1"),
      ("payload", Json.obj [("query", Json.str "subscription \x7b messages \x7d")])]
    [("query", Json.str "subscription \x7b messages \x7d")]
    "subscription \x7b messages \x7d" []
    [⟨Json.obj [("messages", Json.str "hi")], []⟩]
    rfl rfl rfl rfl rfl (List.mem_singleton.mpr rfl)

/-- C2: evaluation at the failing input — a `start` whose query text fails
to parse (`"\x7b"`) makes the `GraphQLSyntaxError` raised by
`parse(query)` propagate uncaught out of the dispatch loop: the run
crashes in the unchanged initial state, so no entry is added to the
Subscription Table but also no `error` frame (no frame at all) is emitted,
and the subsequent `connection_init` frame is never processed — contrary
to the claim that one `error` frame is sent and the loop continues. -/
theorem C2_parse_failure_kills_dispatch_loop :
    graphql_ws_server demo_collab initial_session
      [Inbound.frame (start_msg "1" "\x7b"),
       Inbound.frame (Json.obj [("type", Json.str "connection_init")])] =
      RunResult.crashed initial_session
        (PyExc.graphql_error "Syntax Error: Expected Name, found <EOF>.") ∧
    initial_session.subscriptions = [] ∧
    initial_session.sent = [] :=
  ⟨rfl, rfl, rfl⟩

/-- C3, counterexample: `start id="1"` registers a stream that ends
naturally at once — its observer task emits only the final `complete`
frame — yet after the run the Subscription Table still contains id "1":
natural completion does not remove the entry. -/
theorem C3_counterexample :
    graphql_ws_server demo_collab initial_session
      [Inbound.frame (start_msg "1" "subscription \x7b empty \x7d")] =
      RunResult.awaiting ⟨[(Json.str "1", [])], [⟨Json.str "1", []⟩], [], []⟩ ∧
    observe_async_results demo_collab [] (Json.str "1") =
      [Frame.complete (Json.str "1")] ∧
    dictGet (Json.str "1")
      ([(Json.str "1", [])] : List (Json × List ExecResult)) =
      some ([] : List ExecResult) :=
  ⟨rfl, rfl, rfl⟩

/-- C3 (amended): a Subscription Table entry is removed only by a `stop`
for its id — the `stop` branch closes the stream, records it and deletes
the entry, after which the id is no longer present; natural completion of
a stream makes its observer task send the final `complete` frame but does
not remove the entry, which stays in the table as a stale entry. -/
theorem C3_stop_removes_entry_completion_does_not (C : Collab)
    (s : SessionState) (fields : List (String × Json))
    (results : List ExecResult) (rest : List Inbound)
    (hnodup : (s.subscriptions.map Prod.fst).Nodup)
    (htype : dictGetD "type" fields Json.null = Json.str "stop")
    (hreg : dictGet (dictGetD "id" fields Json.null) s.subscriptions =
      some results) :
    graphql_ws_server_step C s (Json.obj fields) =
      .next { s with
        subscriptions := dictRemove (dictGetD "id" fields Json.null)
          s.subscriptions,
        closed := s.closed ++ [(dictGetD "id" fields Json.null, results)] } ∧
    dictGet (dictGetD "id" fields Json.null)
      (dictRemove (dictGetD "id" fields Json.null) s.subscriptions) = none ∧
    (∀ items oid, (observe_async_results C items oid).getLast? =
      some (Frame.complete oid)) ∧
    graphql_ws_server C s (Inbound.frame (Json.obj fields) :: rest) =
      graphql_ws_server C { s with
        subscriptions := dictRemove (dictGetD "id" fields Json.null)
          s.subscriptions,
        closed := s.closed ++ [(dictGetD "id" fields Json.null, results)] }
        rest := by
  have hstep : graphql_ws_server_step C s (Json.obj fields) =
      .next { s with
        subscriptions := dictRemove (dictGetD "id" fields Json.null)
          s.subscriptions,
        closed := s.closed ++ [(dictGetD "id" fields Json.null, results)] } := by
    simp [graphql_ws_server_step, htype, hreg, GQL_CONNECTION_INIT,
      GQL_CONNECTION_TERMINATE, GQL_START, GQL_STOP]
  refine ⟨hstep, dictGet_dictRemove_self _ _ hnodup, ?_, ?_⟩
  · intro items oid
    simp [observe_async_results]
  · simp [graphql_ws_server, hstep]

/-- C3, witness for the amended theorem: `stop id="1"` on a session where
id "1" is registered (its stream already naturally completed). -/
theorem C3_witness :
    graphql_ws_server_step demo_collab
      ⟨[(Json.str "1", [])], [⟨Json.str "1", []⟩], [], []⟩
      (Json.obj [("type", Json.str "stop"), ("id", Json.str "1")]) =
      .next (⟨[], [⟨Json.str "1", []⟩], [], [(Json.str "1", [])]⟩ :
        SessionState) ∧
    dictGet (Json.str "1")
      (dictRemove (Json.str "1")
        ([(Json.str "1", [])] : List (Json × List ExecResult))) = none ∧
    (∀ items oid, (observe_async_results demo_collab items oid).getLast? =
      some (Frame.complete oid)) ∧
    graphql_ws_server demo_collab
      ⟨[(Json.str "1", [])], [⟨Json.str "1", []⟩], [], []⟩
      [Inbound.frame (Json.obj [("type", Json.str "stop"),
        ("id", Json.str "1")])] =
      graphql_ws_server demo_collab
        (⟨[], [⟨Json.str "1", []⟩], [], [(Json.str "1", [])]⟩ : SessionState)
        [] :=
  C3_stop_removes_entry_completion_does_not demo_collab
    ⟨[(Json.str "1", [])], [⟨Json.str "1", []⟩], [], []⟩
    [("type", Json.str "stop"), ("id", Json.str "1")] [] []
    (by simp) rfl rfl

/-- C7, counterexample: the transport drops right after `start id="1"`
registered a live stream; the receive exception propagates out of the
dispatch loop with the entry still registered (table of length 1) and with
no `aclose` recorded — nothing is released before the session dies. -/
theorem C7_counterexample :
    graphql_ws_server demo_collab initial_session
      [Inbound.frame (start_msg "1" "subscription \x7b messages \x7d"),
       Inbound.disconnect] =
      RunResult.crashed
        ⟨[(Json.str "1", [⟨Json.obj [("messages", Json.str "hi")], []⟩])],
         [⟨Json.str "1", [⟨Json.obj [("messages", Json.str "hi")], []⟩]⟩],
         [], []⟩
        PyExc.websocket_disconnect ∧
    (⟨[(Json.str "1", [⟨Json.obj [("messages", Json.str "hi")], []⟩])],
      [⟨Json.str "1", [⟨Json.obj [("messages", Json.str "hi")], []⟩]⟩],
      [], []⟩ : SessionState).subscriptions.length = 1 ∧
    (⟨[(Json.str "1", [⟨Json.obj [("messages", Json.str "hi")], []⟩])],
      [⟨Json.str "1", [⟨Json.obj [("messages", Json.str "hi")], []⟩]⟩],
      [], []⟩ : SessionState).closed = [] :=
  ⟨rfl, rfl, rfl⟩

/-- C7 (amended): when the underlying transport drops without a
`connection_terminate`, the session performs no cleanup at all: the
receive exception propagates immediately and the run ends in exactly the
state it was in — every still-registered subscription remains in the
table, no stream is closed and no task cancelled by the session (there is
no try/finally around the dispatch loop). -/
theorem C7_disconnect_performs_no_cleanup (C : Collab) (s : SessionState)
    (rest : List Inbound) :
    graphql_ws_server C s (Inbound.disconnect :: rest) =
      RunResult.crashed s PyExc.websocket_disconnect :=
  rfl
